import Mathlib

/-!
Verification of the multi-tenant request-authentication and data-routing
layer of the timesheet application: a shallow embedding of
`server/db.ts` (connection pool registry), `server/auth.ts`
(tenant authentication middleware and role gates) and `server/routes.ts`
(login, tenant provisioning, record creation, subscription lifecycle),
with proofs of the layer's isolation, routing and lifecycle properties.
-/

namespace TimesheetMulti

/-! ## Connection Pool Registry (`server/db.ts`)

`tenantConnections` is a module-level `Map` from a connection string to a
drizzle handle.  `getTenantDb` checks `tenantConnections.has`, constructs
a `new Pool(...)` and inserts it when the key is absent, and returns
`tenantConnections.get(connectionString)!`.  The function body contains no
`await`, so on the Node.js event loop every call executes atomically; a
set of concurrent callers is modelled as an arbitrary sequential
interleaving of atomic calls. -/

/-- State of the `tenantConnections` registry.  A drizzle handle is
modelled by a numeric identity (`Nat`): two callers hold the same handle
iff they hold the same number.  `constructed` logs, most recent first, the
connection string of every `new Pool(...)` executed so far, so that the
number of pool constructions per address is observable. -/
structure RegistryState where
  pools : List (String × Nat)
  nextId : Nat
  constructed : List String
deriving DecidableEq, Repr

/-- Lookup in the association list backing the `tenantConnections` `Map`
(`Map.get` / `Map.has`). -/
def findPool : List (String × Nat) → String → Option Nat
  | [], _ => none
  | (a, p) :: rest, cs => if a = cs then some p else findPool rest cs

/-- `getTenantDb(connectionString)` from `server/db.ts`: if the map has no
entry for the key, construct a pool and set it; then return
`tenantConnections.get(connectionString)!`. -/
def getTenantDb (connectionString : String) (s : RegistryState) :
    Nat × RegistryState :=
  let s1 :=
    if (findPool s.pools connectionString).isSome then s
    else
      { pools := (connectionString, s.nextId) :: s.pools
        nextId := s.nextId + 1
        constructed := connectionString :: s.constructed }
  ((findPool s1.pools connectionString).getD 0, s1)

/-- A sequence of atomic `getTenantDb` calls, returning the handle each
caller received and the final registry state. -/
def runCalls : List String → RegistryState → List Nat × RegistryState
  | [], s => ([], s)
  | cs :: rest, s =>
    let r := getTenantDb cs s
    let rs := runCalls rest r.2
    (r.1 :: rs.1, rs.2)

/-- Number of registry entries stored under a given address. -/
def addrCount (pools : List (String × Nat)) (cs : String) : Nat :=
  pools.countP (fun e => decide (e.1 = cs))

theorem findPool_of_head (cs : String) (p : Nat) (rest : List (String × Nat)) :
    findPool ((cs, p) :: rest) cs = some p := by
  simp [findPool]

theorem getTenantDb_of_found {s : RegistryState} {cs : String} {p : Nat}
    (h : findPool s.pools cs = some p) : getTenantDb cs s = (p, s) := by
  simp [getTenantDb, h]

theorem getTenantDb_of_fresh {s : RegistryState} {cs : String}
    (h : findPool s.pools cs = none) :
    getTenantDb cs s =
      (s.nextId,
       { pools := (cs, s.nextId) :: s.pools
         nextId := s.nextId + 1
         constructed := cs :: s.constructed }) := by
  simp [getTenantDb, h, findPool_of_head]

theorem runCalls_replicate_of_found {s : RegistryState} {cs : String} {p : Nat}
    (h : findPool s.pools cs = some p) (n : Nat) :
    runCalls (List.replicate n cs) s = (List.replicate n p, s) := by
  induction n with
  | zero => simp [runCalls]
  | succ k ih =>
    simp [List.replicate_succ, runCalls, getTenantDb_of_found h, ih]

theorem findPool_none_not_mem {pools : List (String × Nat)} {cs : String}
    (h : findPool pools cs = none) : cs ∉ pools.map Prod.fst := by
  induction pools with
  | nil => simp
  | cons e rest ih =>
    obtain ⟨a, p⟩ := e
    by_cases hac : a = cs
    · simp [findPool, hac] at h
    · simp only [findPool, hac, if_false] at h
      simp only [List.map_cons, List.mem_cons, not_or]
      exact ⟨fun hca => hac hca.symm, ih h⟩

theorem addrCount_eq_zero_of_fresh {pools : List (String × Nat)} {cs : String}
    (h : findPool pools cs = none) : addrCount pools cs = 0 := by
  induction pools with
  | nil => rfl
  | cons e rest ih =>
    obtain ⟨a, p⟩ := e
    by_cases hac : a = cs
    · simp [findPool, hac] at h
    · simp only [findPool, hac, if_false] at h
      have hr := ih h
      simp only [addrCount, List.countP_cons] at hr ⊢
      simp [hac, hr]

/-- Second of two consecutive calls for the same address returns the handle
the first call returned. -/
theorem getTenantDb_stable (cs : String) (s : RegistryState) :
    (getTenantDb cs (getTenantDb cs s).2).1 = (getTenantDb cs s).1 := by
  rcases h : findPool s.pools cs with _ | p
  · rw [getTenantDb_of_fresh h]
    exact congrArg Prod.fst
      (getTenantDb_of_found (s := { pools := (cs, s.nextId) :: s.pools
                                    nextId := s.nextId + 1
                                    constructed := cs :: s.constructed })
        (findPool_of_head cs s.nextId s.pools))
  · simp [getTenantDb_of_found h]

/-- C1: the connection pool registry is single-flight and duplicate-free.
For any registry state in which address `cs` is unseen and whose entries
have pairwise-distinct addresses, an interleaving of `n ≥ 2` concurrent
first-time `getTenantDb` callers for `cs` (each call is atomic on the
event loop, so concurrency is sequential interleaving) yields the
identical pool handle `s.nextId` to every caller, constructs exactly one
underlying pool for `cs`, leaves exactly one registry entry for `cs`, and
preserves the at-most-one-entry-per-address invariant.  Moreover (last
conjunct) in every state the second of two consecutive calls for the same
address returns the identical handle the first returned. -/
theorem C1_pool_registry_single_flight (s : RegistryState) (cs : String) (n : Nat)
    (hfresh : findPool s.pools cs = none) (hn : 2 ≤ n)
    (hnodup : (s.pools.map Prod.fst).Nodup) :
    (runCalls (List.replicate n cs) s).1 = List.replicate n s.nextId ∧
    (runCalls (List.replicate n cs) s).2.constructed.count cs =
      s.constructed.count cs + 1 ∧
    addrCount (runCalls (List.replicate n cs) s).2.pools cs = 1 ∧
    ((runCalls (List.replicate n cs) s).2.pools.map Prod.fst).Nodup ∧
    (∀ t a, (getTenantDb a (getTenantDb a t).2).1 = (getTenantDb a t).1) := by
  obtain ⟨m, rfl⟩ : ∃ m, n = m + 1 := ⟨n - 1, by omega⟩
  have hrun :
      runCalls (List.replicate (m + 1) cs) s =
        (List.replicate (m + 1) s.nextId,
         { pools := (cs, s.nextId) :: s.pools
           nextId := s.nextId + 1
           constructed := cs :: s.constructed }) := by
    rw [List.replicate_succ]
    simp only [runCalls, getTenantDb_of_fresh hfresh]
    rw [runCalls_replicate_of_found (p := s.nextId) (by simp [findPool_of_head])]
    simp [List.replicate_succ]
  refine ⟨by rw [hrun], ?_, ?_, ?_, fun t a => getTenantDb_stable a t⟩
  · rw [hrun]
    simp [List.count_cons_self]
  · rw [hrun]
    have h0 := addrCount_eq_zero_of_fresh hfresh
    simp only [addrCount, List.countP_cons] at h0 ⊢
    simp [h0]
  · rw [hrun]
    simp only [List.map_cons, List.nodup_cons]
    exact ⟨findPool_none_not_mem hfresh, hnodup⟩

/-- C1 at a concrete input: three concurrent first-time callers for the
address "db-acme" on the empty registry. -/
theorem C1_pool_registry_single_flight_witness :
    (runCalls (List.replicate 3 "db-acme") ⟨[], 0, []⟩).1 = List.replicate 3 0 ∧
    (runCalls (List.replicate 3 "db-acme") ⟨[], 0, []⟩).2.constructed.count "db-acme" =
      List.count "db-acme" ([] : List String) + 1 ∧
    addrCount (runCalls (List.replicate 3 "db-acme") ⟨[], 0, []⟩).2.pools "db-acme" = 1 ∧
    (((runCalls (List.replicate 3 "db-acme") ⟨[], 0, []⟩).2.pools.map Prod.fst)).Nodup ∧
    (∀ t a, (getTenantDb a (getTenantDb a t).2).1 = (getTenantDb a t).1) :=
  C1_pool_registry_single_flight ⟨[], 0, []⟩ "db-acme" 3 rfl (by omega) (by simp)

/-! ## Data model (`shared/schema.ts`)

Rows of the `tenants` table (platform store) and the `users` table
(tenant stores), restricted to the columns the authentication and
subscription layers read or write. -/

/-- A row of the `tenants` table.  `dbConnectionString`,
`subscriptionEndsAt`, `stripeCustomerId` and `stripeSubscriptionId` are
nullable columns; timestamps are modelled as milliseconds since epoch. -/
structure Tenant where
  id : Nat
  name : String
  subdomain : String
  dbConnectionString : Option String
  status : String
  subscriptionPlan : String
  subscriptionStatus : String
  subscriptionEndsAt : Option Nat
  stripeCustomerId : Option String
  stripeSubscriptionId : Option String
  maxUsers : Nat
deriving DecidableEq, Repr

/-- A row of the per-tenant `users` table. -/
structure User where
  id : Nat
  email : String
  password : String
  firstName : Option String
  lastName : Option String
  employeeId : Option String
  department : Option String
  designation : Option String
  role : String
  isActive : Bool
  tenantId : Nat
deriving DecidableEq, Repr

/-- JavaScript `x || y` on a nullable string `x`: `null`/`undefined` and
the empty string are falsy, so either falls back to `y`.  This is the
`tenant.dbConnectionString || process.env.DATABASE_URL!` pattern of
`server/auth.ts` lines 140 and 152 and `server/routes.ts` lines 222 and
327, and the `role || 'user'` default of the user-creation route. -/
def jsOrString : Option String → String → String
  | none, y => y
  | some x, y => if x = "" then y else x

/-! ## Tenant authentication middleware (`server/auth.ts`)

`authenticateTenantUser` reads the bearer token (header or cookie),
verifies it, loads the tenant **by the token's `tenantId` claim**,
requires the tenant active, loads the user from the tenant's store (with
the `DATABASE_URL` fallback), and rejects missing/inactive/mismatched
users; on success it attaches the user and a tenant context to the
request.  The route parameter `:subdomain` is part of every tenant-domain
request but is never read by this middleware. -/

/-- The claims of a tenant-domain session token that the middleware
reads: `decoded.userId` and `decoded.tenantId`. -/
structure TokenClaims where
  userId : Nat
  tenantId : Nat
deriving DecidableEq, Repr

/-- The `req.tenant` context attached on successful authentication
(`server/auth.ts` lines 149-153). -/
structure TenantContext where
  id : Nat
  subdomain : String
  connectionString : String
deriving DecidableEq, Repr

/-- Outcome of the middleware: `reject status message` models
`res.status(status).json({message})`, `success user ctx` models
`req.user = user; req.tenant = ctx; next()`. -/
inductive AuthResult where
  | reject (status : Nat) (message : String)
  | success (user : User) (tenant : TenantContext)
deriving DecidableEq, Repr

/-- The stores and collaborators the server reads, as total functions.
`getTenant` and `getTenantBySubdomain` are platform-store lookups;
`getUser` / `getUserByEmail` are tenant-store lookups parameterized by
the connection string the caller used; `checkPassword` is
`comparePasswords` (bcrypt). -/
structure Env where
  databaseUrl : String
  getTenant : Nat → Option Tenant
  getTenantBySubdomain : String → Option Tenant
  getUser : String → Nat → Option User
  getUserByEmail : String → String → Option User
  checkPassword : String → String → Bool

/-- `authenticateTenantUser` from `server/auth.ts` lines 114-159.  The
token argument distinguishes the three cases of the source: `none` = no
token extracted (401 "Access token required"), `some none` =
`verifyToken` threw (caught, 401 "Invalid token"), `some (some decoded)` =
a verified token with claims.  `subdomain` is the request's route
parameter; the middleware never reads it. -/
def authenticateTenantUser (env : Env) (subdomain : String)
    (token : Option (Option TokenClaims)) : AuthResult :=
  match token with
  | none => .reject 401 "Access token required"
  | some none => .reject 401 "Invalid token"
  | some (some decoded) =>
    match env.getTenant decoded.tenantId with
    | none => .reject 401 "Invalid or inactive tenant"
    | some tenant =>
      if tenant.status ≠ "active" then .reject 401 "Invalid or inactive tenant"
      else
        match env.getUser (jsOrString tenant.dbConnectionString env.databaseUrl)
            decoded.userId with
        | none => .reject 401 "Invalid or inactive user"
        | some user =>
          if user.isActive = false ∨ user.tenantId ≠ tenant.id then
            .reject 401 "Invalid or inactive user"
          else
            .success user
              { id := tenant.id
                subdomain := tenant.subdomain
                connectionString :=
                  jsOrString tenant.dbConnectionString env.databaseUrl }

/-! ## Tenant login route (`server/routes.ts` lines 205-270) -/

/-- Outcome of `POST /api/tenant/:subdomain/auth/login`: on success the
route issues a token with claims `{userId: user.id, tenantId: tenant.id,
role: user.role, type: 'tenant'}`; we keep the claims the middleware
later reads. -/
inductive LoginResult where
  | reject (status : Nat) (message : String)
  | success (claims : TokenClaims) (role : String)
deriving DecidableEq, Repr

/-- The tenant login handler: resolve the tenant **by subdomain**, require
it active (404 "Tenant not found or inactive" otherwise), load the user
by email from the tenant store (`dbConnectionString || DATABASE_URL`),
reject missing or cross-tenant users and bad passwords as 401 "Invalid
credentials", inactive accounts as 401 "Account is disabled", then issue
the token. -/
def tenantLogin (env : Env) (subdomain email password : String) : LoginResult :=
  if email = "" ∨ password = "" then .reject 400 "Email and password required"
  else
    match env.getTenantBySubdomain subdomain with
    | none => .reject 404 "Tenant not found or inactive"
    | some tenant =>
      if tenant.status ≠ "active" then .reject 404 "Tenant not found or inactive"
      else
        match env.getUserByEmail (jsOrString tenant.dbConnectionString env.databaseUrl)
            email with
        | none => .reject 401 "Invalid credentials"
        | some user =>
          if user.tenantId ≠ tenant.id then .reject 401 "Invalid credentials"
          else if env.checkPassword password user.password = false then
            .reject 401 "Invalid credentials"
          else if user.isActive = false then .reject 401 "Account is disabled"
          else .success { userId := user.id, tenantId := tenant.id } user.role

/-! ## Tenant provisioning (`server/routes.ts` lines 311-331) -/

/-- The body accepted by `POST /api/platform/tenants`
(`insertTenantSchema`), restricted to the columns the handler reads. -/
structure InsertTenant where
  name : String
  subdomain : String
  dbConnectionString : Option String
deriving DecidableEq, Repr

/-- The tenant-creation handler: reject an existing subdomain with 400,
otherwise store the tenant with
`dbConnectionString: validatedData.dbConnectionString ||
process.env.DATABASE_URL!` and the schema's column defaults.  `newId` is
the serial id the database assigns. -/
def createTenantHandler (env : Env) (newId : Nat) (validatedData : InsertTenant) :
    Except (Nat × String) Tenant :=
  match env.getTenantBySubdomain validatedData.subdomain with
  | some _ => .error (400, "Subdomain already exists")
  | none =>
    .ok
      { id := newId
        name := validatedData.name
        subdomain := validatedData.subdomain
        dbConnectionString :=
          some (jsOrString validatedData.dbConnectionString env.databaseUrl)
        status := "active"
        subscriptionPlan := "free"
        subscriptionStatus := "active"
        subscriptionEndsAt := none
        stripeCustomerId := none
        stripeSubscriptionId := none
        maxUsers := 10 }

/-! ## Role-based access control (`server/auth.ts` lines 174-196) -/

/-- `requireTenantRole(roles)` applied to the request's `req.user`:
`true` models `next()`, `false` models
`res.status(403).json({message: 'Insufficient permissions'})`.
The check is `!req.user || !roles.includes(req.user.role)`. -/
def requireTenantRole (roles : List String) (user : Option User) : Bool :=
  match user with
  | none => false
  | some u => roles.contains u.role

/-- `requireTenantAdmin = requireTenantRole(['admin'])`. -/
def requireTenantAdmin : Option User → Bool :=
  requireTenantRole ["admin"]

/-- `requireTenantManager = requireTenantRole(['admin', 'manager'])`. -/
def requireTenantManager : Option User → Bool :=
  requireTenantRole ["admin", "manager"]

/-- `requireTenantUser = requireTenantRole(['admin', 'manager', 'user'])`. -/
def requireTenantUser : Option User → Bool :=
  requireTenantRole ["admin", "manager", "user"]

/-- Privilege order on the tenant role strings: user < manager < admin;
strings outside the closed role set rank below all of them. -/
def tenantRoleRank (role : String) : Nat :=
  if role = "admin" then 3
  else if role = "manager" then 2
  else if role = "user" then 1
  else 0

theorem tenantRoleRank_ge_three {r : String} (h : 3 ≤ tenantRoleRank r) :
    r = "admin" := by
  by_cases ha : r = "admin"
  · exact ha
  · exfalso
    simp only [tenantRoleRank, ha, if_false] at h
    split at h
    · omega
    · split at h <;> omega

theorem tenantRoleRank_ge_two {r : String} (h : 2 ≤ tenantRoleRank r) :
    r = "admin" ∨ r = "manager" := by
  by_cases ha : r = "admin"
  · exact Or.inl ha
  · by_cases hm : r = "manager"
    · exact Or.inr hm
    · exfalso
      simp only [tenantRoleRank, ha, hm, if_false] at h
      split at h <;> omega


theorem tenantRoleRank_ge_one {r : String} (h : 1 ≤ tenantRoleRank r) :
    r = "admin" ∨ r = "manager" ∨ r = "user" := by
  by_cases ha : r = "admin"
  · exact Or.inl ha
  · by_cases hm : r = "manager"
    · exact Or.inr (Or.inl hm)
    · by_cases hu : r = "user"
      · exact Or.inr (Or.inr hu)
      · exfalso
        simp [tenantRoleRank, ha, hm, hu] at h

/-! ## Properties of the authentication layer -/

theorem jsOrString_falsy {x : Option String} {y : String}
    (h : x = none ∨ x = some "") : jsOrString x y = y := by
  rcases h with h | h <;> simp [h, jsOrString]

/-- Computation lemma: once the token is verified and the token's tenant
is loaded and active, the middleware's outcome is decided by the user
lookup in that tenant's store. -/
theorem authenticateTenantUser_user_step (env : Env) (sub : String)
    (d : TokenClaims) (tenant : Tenant)
    (htenant : env.getTenant d.tenantId = some tenant)
    (hactive : tenant.status = "active") :
    authenticateTenantUser env sub (some (some d)) =
      match env.getUser (jsOrString tenant.dbConnectionString env.databaseUrl)
          d.userId with
      | none => .reject 401 "Invalid or inactive user"
      | some user =>
        if user.isActive = false ∨ user.tenantId ≠ tenant.id then
          .reject 401 "Invalid or inactive user"
        else
          .success user
            { id := tenant.id
              subdomain := tenant.subdomain
              connectionString :=
                jsOrString tenant.dbConnectionString env.databaseUrl } := by
  simp [authenticateTenantUser, htenant, hactive]

/-- Inversion: a successful authentication pins down every step the
middleware took. -/
theorem authenticateTenantUser_success_inv {env : Env} {sub : String}
    {d : TokenClaims} {u : User} {ctx : TenantContext}
    (h : authenticateTenantUser env sub (some (some d)) = .success u ctx) :
    ∃ tenant, env.getTenant d.tenantId = some tenant ∧
      tenant.status = "active" ∧
      ctx = { id := tenant.id
              subdomain := tenant.subdomain
              connectionString :=
                jsOrString tenant.dbConnectionString env.databaseUrl } ∧
      env.getUser ctx.connectionString d.userId = some u ∧
      u.isActive = true ∧ u.tenantId = tenant.id := by
  rcases henv : env.getTenant d.tenantId with _ | tenant
  · simp [authenticateTenantUser, henv] at h
  · by_cases hactive : tenant.status = "active"
    · rw [authenticateTenantUser_user_step env sub d tenant henv hactive] at h
      rcases hu : env.getUser (jsOrString tenant.dbConnectionString env.databaseUrl)
          d.userId with _ | user
      · rw [hu] at h
        exact AuthResult.noConfusion h
      · rw [hu] at h
        split at h
        · exact AuthResult.noConfusion h
        · rename_i user' hcond
          injection hcond with huser
          subst huser
          split at h
          · exact AuthResult.noConfusion h
          · rename_i hcond2
            simp only [not_or, ne_eq, not_not, Bool.not_eq_false] at hcond2
            injection h with h1 h2
            subst h1
            subst h2
            exact ⟨tenant, rfl, hactive, rfl, hu, hcond2.1, hcond2.2⟩
    · simp [authenticateTenantUser, henv, hactive] at h

/-! ### C2: cross-subdomain requests

`authenticateTenantUser` loads the tenant from the token's `tenantId`
claim (`platformStorage.getTenant(decoded.tenantId)`, `server/auth.ts`
line 133) and never reads the request's `:subdomain` route parameter, so
a valid tenant-5 token presented at tenant 7's subdomain is authenticated
against tenant 5 rather than rejected. -/

/-- Concrete tenant with id 5, subdomain "five", active, own store "db5". -/
def tenantFive : Tenant :=
  { id := 5
    name := "Five Corp"
    subdomain := "five"
    dbConnectionString := some "db5"
    status := "active"
    subscriptionPlan := "free"
    subscriptionStatus := "active"
    subscriptionEndsAt := none
    stripeCustomerId := none
    stripeSubscriptionId := none
    maxUsers := 10 }

/-- Concrete tenant with id 7, subdomain "seven", active, own store "db7". -/
def tenantSeven : Tenant :=
  { id := 7
    name := "Seven Inc"
    subdomain := "seven"
    dbConnectionString := some "db7"
    status := "active"
    subscriptionPlan := "free"
    subscriptionStatus := "active"
    subscriptionEndsAt := none
    stripeCustomerId := none
    stripeSubscriptionId := none
    maxUsers := 10 }

/-- An active employee of tenant 5, stored in tenant 5's store. -/
def userFive : User :=
  { id := 1
    email := "alice@five.test"
    password := "hash"
    firstName := none
    lastName := none
    employeeId := none
    department := none
    designation := none
    role := "user"
    isActive := true
    tenantId := 5 }

/-- Environment with two active tenants: ids 5 and 7, subdomains "five"
and "seven", and user 1 living in tenant 5's store. -/
def envTwoTenants : Env :=
  { databaseUrl := "platform-db"
    getTenant := fun i =>
      if i = 5 then some tenantFive
      else if i = 7 then some tenantSeven
      else none
    getTenantBySubdomain := fun s =>
      if s = "five" then some tenantFive
      else if s = "seven" then some tenantSeven
      else none
    getUser := fun conn i =>
      if conn = "db5" then (if i = 1 then some userFive else none) else none
    getUserByEmail := fun conn e =>
      if conn = "db5" then
        (if e = "alice@five.test" then some userFive else none)
      else none
    checkPassword := fun _ _ => false }

/-- C2 counterexample: in `envTwoTenants` the subdomain "seven" resolves
to tenant id 7, yet a request at that subdomain bearing a valid token for
tenant id 5 (user 1) is **authenticated successfully against tenant 5**
(`next()` is called with `req.tenant.id = 5`) instead of being rejected
with a 401 tenant-mismatch error, refuting the claim as stated. -/
theorem C2_counterexample :
    (envTwoTenants.getTenantBySubdomain "seven").map Tenant.id = some 7 ∧
    authenticateTenantUser envTwoTenants "seven"
        (some (some { userId := 1, tenantId := 5 })) =
      .success userFive
        { id := 5, subdomain := "five", connectionString := "db5" } := by
  constructor
  · rfl
  · decide

/-- C2 (amended): the tenant authentication middleware never consults the
request's subdomain — its outcome is identical for any two subdomains —
and whenever it authenticates a request, the tenant it authenticates
against (the attached `req.tenant`) is exactly the tenant loaded from the
**token's** `tenantId` claim.  A token/subdomain mismatch is therefore
not rejected: the request proceeds against the token's tenant. -/
theorem C2_token_tenant_is_authority (env : Env) (sub1 sub2 : String)
    (token : Option (Option TokenClaims)) :
    authenticateTenantUser env sub1 token = authenticateTenantUser env sub2 token ∧
    (∀ d u ctx, token = some (some d) →
      authenticateTenantUser env sub1 token = .success u ctx →
      (env.getTenant d.tenantId).map Tenant.id = some ctx.id) := by
  refine ⟨rfl, ?_⟩
  intro d u ctx ht hs
  subst ht
  obtain ⟨tenant, htenant, -, hctx, -, -, -⟩ :=
    authenticateTenantUser_success_inv hs
  subst hctx
  simp [htenant]

/-- C2 (amended) at a concrete input: the two-tenant environment, the
tenant-5 token at subdomains "seven" and "five". -/
theorem C2_token_tenant_is_authority_witness :
    authenticateTenantUser envTwoTenants "seven"
        (some (some { userId := 1, tenantId := 5 })) =
      authenticateTenantUser envTwoTenants "five"
        (some (some { userId := 1, tenantId := 5 })) ∧
    (envTwoTenants.getTenant 5).map Tenant.id = some 5 :=
  ⟨(C2_token_tenant_is_authority envTwoTenants "seven" "five"
      (some (some { userId := 1, tenantId := 5 }))).1,
   (C2_token_tenant_is_authority envTwoTenants "seven" "five"
      (some (some { userId := 1, tenantId := 5 }))).2
     { userId := 1, tenantId := 5 } userFive
     { id := 5, subdomain := "five", connectionString := "db5" }
     rfl (by decide)⟩

/-- C4: a loaded principal whose owning `tenantId` differs from the
resolved tenant's id fails authentication with HTTP 401 and the generic
message "Invalid or inactive user" — the very same rejection produced for
a missing principal (scenario 2) and for an inactive principal
(scenario 3), so the three causes are indistinguishable to the caller;
no 404 is produced and no data is attached to the request. -/
theorem C4_mismatch_rejected_like_inactive
    (env₁ : Env) (sub₁ : String) (d₁ : TokenClaims) (tenant₁ : Tenant) (user₁ : User)
    (ht₁ : env₁.getTenant d₁.tenantId = some tenant₁)
    (ha₁ : tenant₁.status = "active")
    (hu₁ : env₁.getUser (jsOrString tenant₁.dbConnectionString env₁.databaseUrl)
        d₁.userId = some user₁)
    (hmis : user₁.tenantId ≠ tenant₁.id)
    (env₂ : Env) (sub₂ : String) (d₂ : TokenClaims) (tenant₂ : Tenant)
    (ht₂ : env₂.getTenant d₂.tenantId = some tenant₂)
    (ha₂ : tenant₂.status = "active")
    (hu₂ : env₂.getUser (jsOrString tenant₂.dbConnectionString env₂.databaseUrl)
        d₂.userId = none)
    (env₃ : Env) (sub₃ : String) (d₃ : TokenClaims) (tenant₃ : Tenant) (user₃ : User)
    (ht₃ : env₃.getTenant d₃.tenantId = some tenant₃)
    (ha₃ : tenant₃.status = "active")
    (hu₃ : env₃.getUser (jsOrString tenant₃.dbConnectionString env₃.databaseUrl)
        d₃.userId = some user₃)
    (hinact : user₃.isActive = false) :
    authenticateTenantUser env₁ sub₁ (some (some d₁)) =
      .reject 401 "Invalid or inactive user" ∧
    authenticateTenantUser env₂ sub₂ (some (some d₂)) =
      .reject 401 "Invalid or inactive user" ∧
    authenticateTenantUser env₃ sub₃ (some (some d₃)) =
      .reject 401 "Invalid or inactive user" := by
  refine ⟨?_, ?_, ?_⟩
  · rw [authenticateTenantUser_user_step env₁ sub₁ d₁ tenant₁ ht₁ ha₁]
    simp [hu₁, hmis]
  · rw [authenticateTenantUser_user_step env₂ sub₂ d₂ tenant₂ ht₂ ha₂]
    simp [hu₂]
  · rw [authenticateTenantUser_user_step env₃ sub₃ d₃ tenant₃ ht₃ ha₃]
    simp [hu₃, hinact]

/-- Store for tenant 7 containing a principal owned by tenant 5. -/
def envMismatchStore : Env :=
  { envTwoTenants with
    getUser := fun conn i =>
      if conn = "db7" ∧ i = 1 then some userFive else none }

/-- An inactive employee of tenant 7. -/
def userSevenInactive : User :=
  { userFive with id := 1, isActive := false, tenantId := 7 }

/-- Store for tenant 7 containing only the inactive employee. -/
def envInactiveStore : Env :=
  { envTwoTenants with
    getUser := fun conn i =>
      if conn = "db7" ∧ i = 1 then some userSevenInactive else none }

/-- C4 at concrete inputs: tenant-mismatched, missing and inactive
principals all produce the identical 401 rejection. -/
theorem C4_mismatch_rejected_like_inactive_witness :
    authenticateTenantUser envMismatchStore "seven"
        (some (some { userId := 1, tenantId := 7 })) =
      .reject 401 "Invalid or inactive user" ∧
    authenticateTenantUser envTwoTenants "seven"
        (some (some { userId := 1, tenantId := 7 })) =
      .reject 401 "Invalid or inactive user" ∧
    authenticateTenantUser envInactiveStore "seven"
        (some (some { userId := 1, tenantId := 7 })) =
      .reject 401 "Invalid or inactive user" :=
  C4_mismatch_rejected_like_inactive
    envMismatchStore "seven" { userId := 1, tenantId := 7 } tenantSeven userFive
    (by decide) (by decide) (by decide) (by decide)
    envTwoTenants "seven" { userId := 1, tenantId := 7 } tenantSeven
    (by decide) (by decide) (by decide)
    envInactiveStore "seven" { userId := 1, tenantId := 7 } tenantSeven
    userSevenInactive (by decide) (by decide) (by decide) (by decide)

/-- C5: a tenant whose lifecycle status is anything other than "active"
is rejected on the tenant authentication path: the middleware answers
401 "Invalid or inactive tenant" and the login route answers 404 "Tenant
not found or inactive".  Both outcomes are fixed constants that do not
depend on which non-active status ("inactive" or "suspended") the tenant
has, so the two statuses are treated identically and no distinction is
surfaced. -/
theorem C5_nonactive_tenant_rejected (env : Env) (sub sub2 email password : String)
    (d : TokenClaims) (tenant tenant2 : Tenant)
    (htenant : env.getTenant d.tenantId = some tenant)
    (hstatus : tenant.status ≠ "active")
    (hsub : env.getTenantBySubdomain sub2 = some tenant2)
    (hstatus2 : tenant2.status ≠ "active")
    (hemail : email ≠ "") (hpassword : password ≠ "") :
    authenticateTenantUser env sub (some (some d)) =
      .reject 401 "Invalid or inactive tenant" ∧
    tenantLogin env sub2 email password =
      .reject 404 "Tenant not found or inactive" := by
  constructor
  · simp [authenticateTenantUser, htenant, hstatus]
  · simp [tenantLogin, hemail, hpassword, hsub, hstatus2]

/-- Suspended and inactive variants of a tenant. -/
def tenantSuspended : Tenant :=
  { tenantSeven with id := 8, subdomain := "eight", status := "suspended" }

/-- An inactive tenant. -/
def tenantInactive : Tenant :=
  { tenantSeven with id := 9, subdomain := "nine", status := "inactive" }

/-- Environment containing one suspended and one inactive tenant. -/
def envNonActive : Env :=
  { envTwoTenants with
    getTenant := fun i =>
      if i = 8 then some tenantSuspended
      else if i = 9 then some tenantInactive
      else none
    getTenantBySubdomain := fun s =>
      if s = "eight" then some tenantSuspended
      else if s = "nine" then some tenantInactive
      else none }

/-- C5 at concrete inputs: a suspended tenant on the middleware path and
an inactive tenant on the login path. -/
theorem C5_nonactive_tenant_rejected_witness :
    authenticateTenantUser envNonActive "eight"
        (some (some { userId := 1, tenantId := 8 })) =
      .reject 401 "Invalid or inactive tenant" ∧
    tenantLogin envNonActive "nine" "a@b.test" "pw" =
      .reject 404 "Tenant not found or inactive" :=
  C5_nonactive_tenant_rejected envNonActive "eight" "nine" "a@b.test" "pw"
    { userId := 1, tenantId := 8 } tenantSuspended tenantInactive
    (by decide) (by decide) (by decide) (by decide) (by decide) (by decide)

theorem requireTenantAdmin_eq_true (u : User) :
    requireTenantAdmin (some u) = true ↔ u.role = "admin" := by
  simp [requireTenantAdmin, requireTenantRole, List.contains]

theorem requireTenantManager_eq_true (u : User) :
    requireTenantManager (some u) = true ↔
      u.role = "admin" ∨ u.role = "manager" := by
  simp [requireTenantManager, requireTenantRole, List.contains]

theorem requireTenantUser_eq_true (u : User) :
    requireTenantUser (some u) = true ↔
      u.role = "admin" ∨ u.role = "manager" ∨ u.role = "user" := by
  simp [requireTenantUser, requireTenantRole, List.contains]

/-- C8: the tenant role gates are monotone supersets for the privilege
order user < manager < admin: whatever the admin-only gate admits the
manager-or-above gate admits, and whatever the manager-or-above gate
admits the any-user gate admits; and no gate admits a principal while
rejecting a principal of greater-or-equal privilege rank. -/
theorem C8_role_gates_monotone :
    (∀ u : User, requireTenantAdmin (some u) = true →
      requireTenantManager (some u) = true) ∧
    (∀ u : User, requireTenantManager (some u) = true →
      requireTenantUser (some u) = true) ∧
    (∀ gate, (gate = requireTenantAdmin ∨ gate = requireTenantManager ∨
        gate = requireTenantUser) →
      ∀ u v : User, tenantRoleRank u.role ≤ tenantRoleRank v.role →
        gate (some u) = true → gate (some v) = true) := by
  refine ⟨?_, ?_, ?_⟩
  · intro u h
    rw [requireTenantManager_eq_true]
    exact Or.inl ((requireTenantAdmin_eq_true u).1 h)
  · intro u h
    rw [requireTenantUser_eq_true]
    rcases (requireTenantManager_eq_true u).1 h with h | h
    · exact Or.inl h
    · exact Or.inr (Or.inl h)
  · rintro gate (rfl | rfl | rfl) u v hrank hu
    · rw [requireTenantAdmin_eq_true] at hu ⊢
      have h3 : tenantRoleRank u.role = 3 := by rw [hu]; decide
      exact tenantRoleRank_ge_three (h3 ▸ hrank)
    · rw [requireTenantManager_eq_true] at hu ⊢
      have h2 : 2 ≤ tenantRoleRank u.role := by
        rcases hu with h | h <;> rw [h] <;> decide
      exact tenantRoleRank_ge_two (le_trans h2 hrank)
    · rw [requireTenantUser_eq_true] at hu ⊢
      have h1 : 1 ≤ tenantRoleRank u.role := by
        rcases hu with h | h | h <;> rw [h] <;> decide
      exact tenantRoleRank_ge_one (le_trans h1 hrank)

/-- A tenant admin. -/
def adminUser : User := { userFive with role := "admin" }

/-- A tenant manager. -/
def managerUser : User := { userFive with role := "manager" }

/-- C8 at concrete inputs: the admin passes the manager and any-user
gates, and the manager-or-above gate is monotone from the manager up to
the admin. -/
theorem C8_role_gates_monotone_witness :
    requireTenantManager (some adminUser) = true ∧
    requireTenantUser (some adminUser) = true ∧
    requireTenantManager (some adminUser) = true :=
  ⟨C8_role_gates_monotone.1 adminUser (by decide),
   C8_role_gates_monotone.2.1 adminUser
     (C8_role_gates_monotone.1 adminUser (by decide)),
   C8_role_gates_monotone.2.2 requireTenantManager (Or.inr (Or.inl rfl))
     managerUser adminUser (by decide) (by decide)⟩

/-- C9: whenever a tenant's `dbConnectionString` is `null` or empty, the
`|| process.env.DATABASE_URL` fallback makes every tenant-store access go
to the platform's own database: (1) the connection-string expression used
by `authenticateTenantUser` (twice), by the login route and by the
user/customer/timesheet/expense handlers via `req.tenant.connectionString`
evaluates to `DATABASE_URL`; (2) a successfully authenticated request for
such a tenant carries `connectionString = DATABASE_URL` in its tenant
context; (3) tenant creation defaults the stored field to `DATABASE_URL`
when the body omits or empties it. -/
theorem C9_platform_db_fallback (env : Env) (sub : String) (d : TokenClaims)
    (tenant : Tenant) (newId : Nat) (data : InsertTenant)
    (hcs : tenant.dbConnectionString = none ∨ tenant.dbConnectionString = some "") :
    jsOrString tenant.dbConnectionString env.databaseUrl = env.databaseUrl ∧
    (∀ u ctx, env.getTenant d.tenantId = some tenant →
      authenticateTenantUser env sub (some (some d)) = .success u ctx →
      ctx.connectionString = env.databaseUrl) ∧
    ((data.dbConnectionString = none ∨ data.dbConnectionString = some "") →
      ∀ t, createTenantHandler env newId data = .ok t →
        t.dbConnectionString = some env.databaseUrl) := by
  refine ⟨jsOrString_falsy hcs, ?_, ?_⟩
  · intro u ctx htenant hs
    obtain ⟨tenant', htenant', -, hctx, -, -, -⟩ :=
      authenticateTenantUser_success_inv hs
    rw [htenant] at htenant'
    injection htenant' with he
    subst he
    subst hctx
    exact jsOrString_falsy hcs
  · intro hdata t hok
    unfold createTenantHandler at hok
    split at hok
    · exact Except.noConfusion hok
    · injection hok with ht
      rw [← ht]
      simp [jsOrString_falsy hdata]

/-- A tenant whose store address is null: its data lives in the platform
store. -/
def tenantShared : Tenant :=
  { tenantFive with id := 3, subdomain := "shared", dbConnectionString := none }

/-- An employee of the null-address tenant, living in the platform store. -/
def userShared : User := { userFive with id := 2, tenantId := 3 }

/-- Environment for the null-address tenant: the only user store that
answers is the platform one ("platform-db"). -/
def envShared : Env :=
  { envTwoTenants with
    getTenant := fun i => if i = 3 then some tenantShared else none
    getUser := fun conn i =>
      if conn = "platform-db" ∧ i = 2 then some userShared else none }

/-- The `POST /api/platform/tenants` body with no `dbConnectionString`. -/
def insertShared : InsertTenant :=
  { name := "New Org", subdomain := "neworg", dbConnectionString := none }

/-- C9 at concrete inputs: the fallback expression, an authentication
that succeeds against the platform store, and a tenant created with the
defaulted address. -/
theorem C9_platform_db_fallback_witness :
    jsOrString tenantShared.dbConnectionString envShared.databaseUrl =
      envShared.databaseUrl ∧
    TenantContext.connectionString
        { id := 3, subdomain := "shared", connectionString := "platform-db" } =
      envShared.databaseUrl ∧
    Tenant.dbConnectionString
        { id := 11
          name := "New Org"
          subdomain := "neworg"
          dbConnectionString := some "platform-db"
          status := "active"
          subscriptionPlan := "free"
          subscriptionStatus := "active"
          subscriptionEndsAt := none
          stripeCustomerId := none
          stripeSubscriptionId := none
          maxUsers := 10 } = some envShared.databaseUrl := by
  have h := C9_platform_db_fallback envShared "shared" { userId := 2, tenantId := 3 }
    tenantShared 11 insertShared (Or.inl rfl)
  refine ⟨h.1, ?_, ?_⟩
  · exact h.2.1 userShared { id := 3, subdomain := "shared", connectionString := "platform-db" }
      (by decide) (by decide)
  · exact h.2.2 (Or.inl rfl) _ rfl

/-! ## Subscription lifecycle (`server/routes.ts` lines 836-981)

The upgrade and cancel routes resolve the tenant by subdomain
(`getTenantBySubdomain`); their bodies are modelled from that lookup
result onward.  Stripe calls are modelled by the results the provider
returns, `.error e` standing for a rejected call that the route's `catch`
turns into a 500 response. -/

/-- The part of a Stripe subscription object the handlers read. -/
structure StripeSubscription where
  id : String
  status : String
deriving DecidableEq, Repr

/-- Results of the three Stripe calls the subscription routes make:
`stripe.customers.create`, `stripe.subscriptions.create` and
`stripe.subscriptions.cancel`. -/
structure BillingStub where
  createCustomer : Except String String
  createSubscription : Except String StripeSubscription
  cancelSubscription : String → Except String String

/-- Responses of the subscription routes: the three success bodies, the
404 for an unknown subdomain, and the 500 `catch` branch. -/
inductive SubResp where
  | downgraded
  | upgraded (subscriptionId status : String)
  | cancelled
  | notFound
  | serverError (message : String)
deriving DecidableEq, Repr

/-- Whether the response is the 500 `catch` branch. -/
def SubResp.isServerError : SubResp → Bool
  | .serverError _ => true
  | _ => false

/-- `updateTenantSubscription` write of the free-downgrade branch. -/
def downgradeWrite (tenant : Tenant) : Tenant :=
  { tenant with
    subscriptionPlan := "free"
    subscriptionStatus := "active"
    stripeSubscriptionId := none
    subscriptionEndsAt := none }

/-- `updateTenantSubscription` write of the paid-upgrade branch:
`subscriptionEndsAt` is `Date.now() + 30 * 24 * 60 * 60 * 1000`. -/
def paidWrite (tenant : Tenant) (plan customerId subscriptionId : String)
    (now : Nat) : Tenant :=
  { tenant with
    subscriptionPlan := plan
    subscriptionStatus := "active"
    stripeCustomerId := some customerId
    stripeSubscriptionId := some subscriptionId
    subscriptionEndsAt := some (now + 30 * 24 * 60 * 60 * 1000) }

/-- `updateTenantSubscription` write of the cancel route. -/
def cancelWrite (tenant : Tenant) : Tenant :=
  { tenant with
    subscriptionPlan := "free"
    subscriptionStatus := "cancelled"
    stripeSubscriptionId := none
    subscriptionEndsAt := none }

/-- `POST /api/tenant/:subdomain/subscription/upgrade`: `lookup` is the
`getTenantBySubdomain` result; the returned pair is the tenant row after
the handler ran (unchanged whenever a Stripe call failed) and the HTTP
response. -/
def upgradeSubscription (stripe : BillingStub) (now : Nat)
    (lookup : Option Tenant) (plan : String) : Option Tenant × SubResp :=
  match lookup with
  | none => (none, .notFound)
  | some tenant =>
    if plan = "free" then
      match tenant.stripeSubscriptionId with
      | some subId =>
        match stripe.cancelSubscription subId with
        | .error e => (some tenant, .serverError e)
        | .ok _ => (some (downgradeWrite tenant), .downgraded)
      | none => (some (downgradeWrite tenant), .downgraded)
    else
      match (match tenant.stripeCustomerId with
             | some c => Except.ok c
             | none => stripe.createCustomer : Except String String) with
      | .error e => (some tenant, .serverError e)
      | .ok customerId =>
        match stripe.createSubscription with
        | .error e => (some tenant, .serverError e)
        | .ok sub =>
          (some (paidWrite tenant plan customerId sub.id now),
           .upgraded sub.id sub.status)

/-- `POST /api/tenant/:subdomain/subscription/cancel`; the last component
counts the `stripe.subscriptions.cancel` calls this invocation made (the
provider is called only under `if (tenant.stripeSubscriptionId)`). -/
def cancelSubscriptionRoute (stripe : BillingStub) (lookup : Option Tenant) :
    Option Tenant × SubResp × Nat :=
  match lookup with
  | none => (none, .notFound, 0)
  | some tenant =>
    match tenant.stripeSubscriptionId with
    | some subId =>
      match stripe.cancelSubscription subId with
      | .error e => (some tenant, .serverError e, 1)
      | .ok _ => (some (cancelWrite tenant), .cancelled, 1)
    | none => (some (cancelWrite tenant), .cancelled, 0)

/-- C3: when the external billing subscription-creation call fails during
an upgrade to a paid plan, the tenant's local subscription state is left
exactly as it was (state before = state after) and the error is surfaced
to the caller as the 500 `catch` response; the local write happens only
after `stripe.subscriptions.create` has succeeded. -/
theorem C3_no_local_write_on_billing_failure (stripe : BillingStub) (now : Nat)
    (tenant : Tenant) (plan : String) (e : String)
    (hplan : plan ≠ "free")
    (hfail : stripe.createSubscription = .error e) :
    (upgradeSubscription stripe now (some tenant) plan).1 = some tenant ∧
    ((upgradeSubscription stripe now (some tenant) plan).2).isServerError = true := by
  simp only [upgradeSubscription]
  rw [if_neg hplan]
  rcases hc : tenant.stripeCustomerId with _ | c
  · rcases hcc : stripe.createCustomer with e' | c'
    · simp [hc, hcc, SubResp.isServerError]
    · simp [hc, hcc, hfail, SubResp.isServerError]
  · simp [hc, hfail, SubResp.isServerError]

/-- A billing provider whose subscription creation is down. -/
def billingDown : BillingStub :=
  { createCustomer := .ok "cus_1"
    createSubscription := .error "stripe unavailable"
    cancelSubscription := fun _ => .error "stripe unavailable" }

/-- C3 at a concrete input: upgrading tenant "five" to "standard" while
Stripe is down leaves the row untouched and answers 500. -/
theorem C3_no_local_write_on_billing_failure_witness :
    (upgradeSubscription billingDown 0 (some tenantFive) "standard").1 =
      some tenantFive ∧
    ((upgradeSubscription billingDown 0 (some tenantFive) "standard").2).isServerError =
      true :=
  C3_no_local_write_on_billing_failure billingDown 0 tenantFive "standard"
    "stripe unavailable" (by decide) rfl

/-- C6: a tenant in state plan = "free" / status = "active" with no
billing customer yet, upgraded to "standard" against a provider that
returns customer "cus_1" and subscription "sub_1" (status "active"), ends
in local state exactly `{plan: "standard", status: "active",
billingCustomerRef: "cus_1", billingSubscriptionRef: "sub_1",
expiry: now + 30 days}`, every other column unchanged. -/
theorem C6_upgrade_standard_scenario (stripe : BillingStub) (now : Nat)
    (tenant : Tenant)
    (hplan : tenant.subscriptionPlan = "free")
    (hstatus : tenant.subscriptionStatus = "active")
    (hcust : tenant.stripeCustomerId = none)
    (hcc : stripe.createCustomer = .ok "cus_1")
    (hcs : stripe.createSubscription = .ok { id := "sub_1", status := "active" }) :
    upgradeSubscription stripe now (some tenant) "standard" =
      (some { tenant with
              subscriptionPlan := "standard"
              subscriptionStatus := "active"
              stripeCustomerId := some "cus_1"
              stripeSubscriptionId := some "sub_1"
              subscriptionEndsAt := some (now + 30 * 24 * 60 * 60 * 1000) },
       .upgraded "sub_1" "active") := by
  simp only [upgradeSubscription]
  rw [if_neg (by decide)]
  simp [hcust, hcc, hcs, paidWrite]

/-- A billing provider matching the spec's scenario stub. -/
def billingScenario : BillingStub :=
  { createCustomer := .ok "cus_1"
    createSubscription := .ok { id := "sub_1", status := "active" }
    cancelSubscription := fun _ => .ok "cancelled" }

/-- C6 at a concrete input: tenant "five" (free/active, no customer ref)
upgraded at `now = 1000`. -/
theorem C6_upgrade_standard_scenario_witness :
    upgradeSubscription billingScenario 1000 (some tenantFive) "standard" =
      (some { tenantFive with
              subscriptionPlan := "standard"
              subscriptionStatus := "active"
              stripeCustomerId := some "cus_1"
              stripeSubscriptionId := some "sub_1"
              subscriptionEndsAt := some (1000 + 30 * 24 * 60 * 60 * 1000) },
       .upgraded "sub_1" "active") :=
  C6_upgrade_standard_scenario billingScenario 1000 tenantFive rfl rfl rfl rfl rfl

/-- C7: cancel is idempotent.  After any cancel call that completed its
local write (response `.cancelled`), the stored billing subscription
reference is null, and a second cancel on that state is a no-op: it
leaves the state unchanged, answers `.cancelled` again, and makes **zero**
external `stripe.subscriptions.cancel` calls, because the provider is
invoked only when `tenant.stripeSubscriptionId` is non-null. -/
theorem C7_cancel_idempotent (stripe : BillingStub) (t s₁ : Tenant) (n : Nat)
    (h : cancelSubscriptionRoute stripe (some t) = (some s₁, .cancelled, n)) :
    s₁.stripeSubscriptionId = none ∧
    cancelSubscriptionRoute stripe (some s₁) = (some s₁, .cancelled, 0) := by
  have hs : s₁ = cancelWrite t := by
    simp only [cancelSubscriptionRoute] at h
    split at h
    · split at h
      · injection h with h1 h2
        injection h2 with h2a h2b
        exact SubResp.noConfusion h2a
      · injection h with h1 h2
        injection h1 with h1'
        exact h1'.symm
    · injection h with h1 h2
      injection h1 with h1'
      exact h1'.symm
  subst hs
  exact ⟨rfl, rfl⟩

/-- A tenant on a paid plan with a live billing subscription. -/
def tenantPaid : Tenant :=
  { tenantFive with
    subscriptionPlan := "standard"
    stripeCustomerId := some "cus_1"
    stripeSubscriptionId := some "sub_1" }

/-- C7 at a concrete input: cancelling tenantPaid once (one external
cancel call), then again (zero external calls, state unchanged). -/
theorem C7_cancel_idempotent_witness :
    Tenant.stripeSubscriptionId (cancelWrite tenantPaid) = none ∧
    cancelSubscriptionRoute billingScenario (some (cancelWrite tenantPaid)) =
      (some (cancelWrite tenantPaid), .cancelled, 0) :=
  C7_cancel_idempotent billingScenario tenantPaid (cancelWrite tenantPaid) 1 rfl

/-! ## Record creation through authenticated tenant endpoints
(`server/routes.ts` lines 364-805)

Each creation handler builds the record it passes to the tenant storage by
spreading the (validated) request body and then overriding the ownership
columns from the authenticated request context: `tenantId: req.tenant!.id`
always, and `userId: req.user!.id` for timesheets and expenses
(`createdById: req.user!.id` for customers).  The structures below are the
arguments of `createUser` / `createCustomer` / `createTimesheet` /
`createExpense`; the bodies carry attacker-controllable `tenantId` /
`userId` fields to show the override wins. -/

/-- JavaScript `x || undefined` on a nullable string (used for the
`employeeId`, `department` and `designation` body fields). -/
def jsOrUndefined : Option String → Option String
  | none => none
  | some x => if x = "" then none else some x

/-- Body of `POST /api/tenant/:subdomain/users`.  The handler destructures
only the listed named fields; a `tenantId` in the body is never read. -/
structure CreateUserBody where
  email : String
  password : String
  firstName : Option String
  lastName : Option String
  employeeId : Option String
  department : Option String
  designation : Option String
  role : Option String
  tenantId : Option Nat
deriving DecidableEq, Repr

/-- The record the user-creation handler passes to
`tenantStorage.createUser`: `tenantId` is `req.tenant!.id`, `isActive` is
`true`, `role` defaults to "user", the password is the bcrypt digest.
`newId` is the serial id the store assigns. -/
def createUserRecord (tenantCtxId : Nat) (newId : Nat) (hashedPassword : String)
    (body : CreateUserBody) : User :=
  { id := newId
    email := body.email
    password := hashedPassword
    firstName := body.firstName
    lastName := body.lastName
    employeeId := jsOrUndefined body.employeeId
    department := jsOrUndefined body.department
    designation := jsOrUndefined body.designation
    role := jsOrString body.role "user"
    isActive := true
    tenantId := tenantCtxId }

/-- `insertCustomerSchema` shape: the argument of
`tenantStorage.createCustomer`. -/
structure InsertCustomer where
  customerId : String
  name : String
  email : String
  status : String
  address : Option String
  city : Option String
  state : Option String
  pincode : Option String
  tenantId : Nat
  createdById : Nat
deriving DecidableEq, Repr

/-- `{...validatedData, tenantId: req.tenant!.id, createdById:
req.user!.id}` of the customer-creation handler. -/
def createCustomerRecord (tenantCtxId userId : Nat)
    (validatedData : InsertCustomer) : InsertCustomer :=
  { validatedData with tenantId := tenantCtxId, createdById := userId }

/-- `insertTimesheetSchema` shape: the argument of
`tenantStorage.createTimesheet`.  Numeric hour columns are carried as the
strings drizzle stores; `date` is a timestamp. -/
structure InsertTimesheet where
  userId : Nat
  projectId : Nat
  taskId : Option Nat
  customerId : Nat
  date : Nat
  mondayHours : String
  tuesdayHours : String
  wednesdayHours : String
  thursdayHours : String
  fridayHours : String
  saturdayHours : String
  sundayHours : String
  totalHours : String
  payType : String
  status : String
  notes : Option String
  tenantId : Nat
deriving DecidableEq, Repr

/-- `{...validatedData, userId: req.user!.id, tenantId: req.tenant!.id}`
of the timesheet-creation handler. -/
def createTimesheetRecord (tenantCtxId userId : Nat)
    (validatedData : InsertTimesheet) : InsertTimesheet :=
  { validatedData with userId := userId, tenantId := tenantCtxId }

/-- `insertExpenseSchema` shape: the argument of
`tenantStorage.createExpense`. -/
structure InsertExpense where
  userId : Nat
  projectId : Option Nat
  amount : String
  currency : String
  description : Option String
  category : Option String
  date : Nat
  status : String
  receiptUrl : Option String
  tenantId : Nat
deriving DecidableEq, Repr

/-- `{...validatedData, userId: req.user!.id, tenantId: req.tenant!.id}`
of the expense-creation handler. -/
def createExpenseRecord (tenantCtxId userId : Nat)
    (validatedData : InsertExpense) : InsertExpense :=
  { validatedData with userId := userId, tenantId := tenantCtxId }

/-- C10: every record created through an authenticated tenant endpoint has
its `tenantId` forced to the authenticated request's resolved tenant id,
and timesheets and expenses additionally have their `userId` forced to the
authenticated principal's id (customers record the principal as
`createdById`), whatever `tenantId` / `userId` values the request body
supplied — so a caller cannot create records attributed to another tenant
or user. -/
theorem C10_server_forces_ownership :
    (∀ (tenantCtxId newId : Nat) (hashed : String) (body : CreateUserBody),
      (createUserRecord tenantCtxId newId hashed body).tenantId = tenantCtxId) ∧
    (∀ (tenantCtxId userId : Nat) (v : InsertCustomer),
      (createCustomerRecord tenantCtxId userId v).tenantId = tenantCtxId ∧
      (createCustomerRecord tenantCtxId userId v).createdById = userId) ∧
    (∀ (tenantCtxId userId : Nat) (v : InsertTimesheet),
      (createTimesheetRecord tenantCtxId userId v).tenantId = tenantCtxId ∧
      (createTimesheetRecord tenantCtxId userId v).userId = userId) ∧
    (∀ (tenantCtxId userId : Nat) (v : InsertExpense),
      (createExpenseRecord tenantCtxId userId v).tenantId = tenantCtxId ∧
      (createExpenseRecord tenantCtxId userId v).userId = userId) :=
  ⟨fun _ _ _ _ => rfl,
   fun _ _ _ => ⟨rfl, rfl⟩,
   fun _ _ _ => ⟨rfl, rfl⟩,
   fun _ _ _ => ⟨rfl, rfl⟩⟩

end TimesheetMulti
